import Mathlib

/-
  Verification development for the digi_chatbot repository.

  The repository holds two near-duplicate Streamlit chat front-ends:
    src/main_add_chatconsole.py   (the "add" client)
    src/main_voice_chat_console.py (the "voice" client)

  This file embeds, in Lean, the pure decision logic of both files:
  configuration truthiness, the candidate request-payload ("variant")
  lists built by call_azure_openai_with_search_rest, the sequential
  submission loop over those variants, endpoint normalization, the
  transcription / synthesis result classification, the recording
  resource life cycle, and process_query's chat-history updates.

  External effects (HTTP, audio devices, the speech SDK) are modelled
  by explicit outcome oracles passed as arguments; the embedded
  functions follow the Python control flow on those outcomes.
-/

namespace DigiChatbot

/-- Python truthiness of an optional string configuration value
(`None` and the empty string are falsy), as used by
`not config[...]` and `all([...])` in both source files. -/
def truthy : Option String → Bool
  | none => false
  | some s => !(s == "")

/-- Number of the three search configuration fields
(endpoint, key, index) that are present (truthy). -/
def presentCount (se sk si : Option String) : Nat :=
  (if truthy se then 1 else 0) + (if truthy sk then 1 else 0) + (if truthy si then 1 else 0)

/-- Python's `s.startswith(pre)`, modelled on the character list of the string. -/
def strStarts (s pre : String) : Bool := pre.data.isPrefixOf s.data

/-- Python's `s.rstrip('/')`: remove every trailing `/` character.
Used by both clients to clean the completion endpoint
(main_voice_chat_console.py line 63, main_add_chatconsole.py line 101). -/
def rstripSlashes (s : String) : String :=
  String.mk ((s.data.reverse.dropWhile (fun c => c == '/')).reverse)

/-- Embedding of `validate_azure_endpoint_format`
(main_voice_chat_console.py lines 57-73): falsy input gives `None`;
otherwise trailing slashes are stripped and `https://` is prepended
unless the value already starts with `https://`.  The
`'openai.azure.com' not in endpoint` check only logs a warning and is
omitted here. -/
def validate_azure_endpoint_format (endpoint : Option String) : Option String :=
  match endpoint with
  | none => none
  | some e =>
    if e == "" then none
    else
      some (if strStarts (rstripSlashes e) "https://" then rstripSlashes e
            else "https://" ++ rstripSlashes e)

/-- The chat-completions request URL, as the f-string
`{endpoint}/openai/deployments/{deployment}/chat/completions?api-version={api_version}`
builds it in both source files. -/
def build_url (endpoint deployment apiVersion : String) : String :=
  endpoint ++ "/openai/deployments/" ++ deployment ++ "/chat/completions?api-version=" ++ apiVersion

/-- The request URL as the add client builds it
(main_add_chatconsole.py lines 100-102): only `rstrip('/')` is applied
to the endpoint, no scheme is prepended. -/
def request_url_add (endpoint deployment apiVersion : String) : String :=
  build_url (rstripSlashes endpoint) deployment apiVersion

/-- One `{"role": ..., "content": ...}` entry of a request payload's
`messages` array. -/
structure Message where
  role : String
  content : String
  deriving DecidableEq

/-- The nested `authentication` object of a search data source
(`{"type": "api_key", "key": search_key}`).  The key is the raw
configuration value, which may be absent (`None`) in the add client. -/
structure AuthBlock where
  type : String
  key : Option String
  deriving DecidableEq

/-- The `parameters` object of a search data source.  Fields that a
given variant's dict does not contain are `none`. -/
structure DataSourceParams where
  endpoint : Option String
  index_name : Option String
  authentication : Option AuthBlock
  key : Option String
  query_type : Option String
  in_scope : Option Bool
  top_n_documents : Option Nat
  role_information : Option String
  deriving DecidableEq

/-- One entry of a payload's `data_sources` array. -/
structure DataSource where
  type : String
  parameters : DataSourceParams
  deriving DecidableEq

/-- A candidate request body (one "variant").  A payload without a
`data_sources` key is modelled with an empty `data_sources` list.
The source's `temperature` is the constant 0.0, modelled as the exact
integer 0. -/
structure Payload where
  messages : List Message
  temperature : Int
  max_tokens : Nat
  data_sources : List DataSource
  deriving DecidableEq

/-- The system/role instruction string used by every variant in both files. -/
def roleInstruction : String := "You are a helpful Loan agent that responds in Thai language"

/-- Variant A, the modern schema (structure 1 in both files):
`azure_search` type, nested api-key authentication, `query_type`
"simple", `in_scope` true, `top_n_documents` 5, role information. -/
def payloadA (se sk si : Option String) (query : String) : Payload :=
  { messages := [{ role := "system", content := roleInstruction },
                 { role := "user", content := query }]
    temperature := 0
    max_tokens := 1000
    data_sources := [{ type := "azure_search"
                       parameters :=
                         { endpoint := se
                           index_name := si
                           authentication := some { type := "api_key", key := sk }
                           key := none
                           query_type := some "simple"
                           in_scope := some true
                           top_n_documents := some 5
                           role_information := some roleInstruction } }] }

/-- Variant B, the legacy schema (structure 2 in both files):
`AzureCognitiveSearch` type, nested api-key authentication only. -/
def payloadB (se sk si : Option String) (query : String) : Payload :=
  { messages := [{ role := "system", content := roleInstruction },
                 { role := "user", content := query }]
    temperature := 0
    max_tokens := 1000
    data_sources := [{ type := "AzureCognitiveSearch"
                       parameters :=
                         { endpoint := se
                           index_name := si
                           authentication := some { type := "api_key", key := sk }
                           key := none
                           query_type := none
                           in_scope := none
                           top_n_documents := none
                           role_information := none } }] }

/-- Variant C, the minimal schema (structure 3, present only in
main_add_chatconsole.py lines 155-171): `azure_search` type with the
key passed directly instead of a nested authentication object. -/
def payloadC (se sk si : Option String) (query : String) : Payload :=
  { messages := [{ role := "system", content := roleInstruction },
                 { role := "user", content := query }]
    temperature := 0
    max_tokens := 1000
    data_sources := [{ type := "azure_search"
                       parameters :=
                         { endpoint := se
                           index_name := si
                           authentication := none
                           key := sk
                           query_type := none
                           in_scope := none
                           top_n_documents := none
                           role_information := none } }] }

/-- Variant D, the no-search fallback (structure 4 in the add file,
the unconditional final payload in the voice file). -/
def payloadD (query : String) : Payload :=
  { messages := [{ role := "system", content := roleInstruction },
                 { role := "user", content := query }]
    temperature := 0
    max_tokens := 1000
    data_sources := [] }

/-- A payload is search-enabled when it carries a `data_sources` block. -/
def isSearchVariant (p : Payload) : Bool := !p.data_sources.isEmpty

/-- The `payloads_to_try` list of the add client
(main_add_chatconsole.py lines 110-181): always the four structures
A, B, C, D, regardless of which search fields are present. -/
def payloads_to_try_add (se sk si : Option String) (query : String) : List Payload :=
  [payloadA se sk si query, payloadB se sk si query, payloadC se sk si query, payloadD query]

/-- The `payloads_to_try` list of the voice client
(main_voice_chat_console.py lines 174-232): structures A and B are
appended only when `all([search_endpoint, search_key, search_index])`
holds, and the no-search fallback D is always appended last. -/
def payloads_to_try_voice (se sk si : Option String) (query : String) : List Payload :=
  (if truthy se && truthy sk && truthy si
   then [payloadA se sk si query, payloadB se sk si query]
   else []) ++ [payloadD query]

/-- The observable part of one HTTP response: status code, whether
`response.json()` parses, the extracted `choices[0].message.content`
when the parsed body has that shape, a rendering of the parsed JSON
(used in error messages), the raw body text, and the text of the
exception raised by parsing/extraction when it fails. -/
structure HttpResponse where
  status : Nat
  jsonOk : Bool
  content : Option String
  jsonStr : String
  text : String
  errText : String
  deriving DecidableEq

/-- Outcome of submitting one payload: a response, or a
transport-level failure raised by `requests.post`. -/
inductive HttpOutcome where
  | response (r : HttpResponse)
  | timeout
  | connectionError
  | otherError (msg : String)
  deriving DecidableEq

/-- The content the source extracts from a decoded 200 body:
`result['choices'][0]['message']['content']`; `none` when decoding or
the shape access raises. -/
def extractContent (r : HttpResponse) : Option String :=
  if r.jsonOk then r.content else none

/-- The content an attempt returns successfully, if any: requires
status 200 and a well-shaped body. -/
def succContent : HttpOutcome → Option String
  | HttpOutcome.response r => if r.status == 200 then extractContent r else none
  | _ => none

/-- The attempt-failure message the voice client's loop stores in
`last_error` for payload number `i`
(main_voice_chat_console.py lines 247-272). -/
def failMsg_voice (i : Nat) (o : HttpOutcome) : String :=
  match o with
  | HttpOutcome.response r =>
    if r.status == 200 then
      "Payload " ++ toString i ++ " failed with error: " ++ r.errText
    else if r.jsonOk then
      "Payload " ++ toString i ++ " failed - Status: " ++ toString r.status ++ ", Error: " ++ r.jsonStr
    else
      "Payload " ++ toString i ++ " failed - Status: " ++ toString r.status ++ ", Response: " ++ r.text.take 200
  | HttpOutcome.timeout => "Payload " ++ toString i ++ " failed - Request timeout"
  | HttpOutcome.connectionError => "Payload " ++ toString i ++ " failed - Connection error"
  | HttpOutcome.otherError m => "Payload " ++ toString i ++ " failed with error: " ++ m

/-- Stands for Python's `str(e)` of a `requests.exceptions.Timeout`,
whose exact text comes from the requests library at run time. -/
def timeoutErrText : String := "Request timed out"

/-- Stands for Python's `str(e)` of a
`requests.exceptions.ConnectionError`. -/
def connectionErrText : String := "Connection error"

/-- The attempt-failure message the add client's loop stores in
`last_error` for payload number `i`
(main_add_chatconsole.py lines 196-206); transport failures reach its
single generic `except` branch. -/
def failMsg_add (i : Nat) (o : HttpOutcome) : String :=
  match o with
  | HttpOutcome.response r =>
    if r.status == 200 then
      "Payload " ++ toString i ++ " failed with error: " ++ r.errText
    else
      "Payload " ++ toString i ++ " failed with status code: " ++ toString r.status ++ ", Response: " ++ r.text
  | HttpOutcome.timeout => "Payload " ++ toString i ++ " failed with error: " ++ timeoutErrText
  | HttpOutcome.connectionError => "Payload " ++ toString i ++ " failed with error: " ++ connectionErrText
  | HttpOutcome.otherError m => "Payload " ++ toString i ++ " failed with error: " ++ m

/-- The message of the exception both clients raise after exhausting
every payload: it embeds only `last_error` (which is `None` when no
payload existed). -/
def allFailedMsg : Option String → String
  | none => "All API payload structures failed. Last error: None"
  | some s => "All API payload structures failed. Last error: " ++ s

/-- The submission loop `for i, payload in enumerate(payloads_to_try, 1)`
common to both clients, with the per-attempt failure message supplied
by `fm` (instantiated with `failMsg_voice` or `failMsg_add`) and the
network behaviour supplied by the oracle (attempt number to outcome):
a 200 response with extractable content returns it immediately; any
other outcome overwrites `last_error` and moves to the next payload;
an exhausted list raises with `allFailedMsg last_error`. -/
def run_payloads (fm : Nat → HttpOutcome → String) (oracle : Nat → HttpOutcome) :
    List Payload → Nat → Option String → Except String String
  | [], _, lastErr => Except.error (allFailedMsg lastErr)
  | _ :: rest, i, _ =>
    match oracle i with
    | HttpOutcome.response r =>
      if r.status == 200 then
        match extractContent r with
        | some c => Except.ok c
        | none => run_payloads fm oracle rest (i + 1) (some (fm i (HttpOutcome.response r)))
      else
        run_payloads fm oracle rest (i + 1) (some (fm i (HttpOutcome.response r)))
    | o => run_payloads fm oracle rest (i + 1) (some (fm i o))

/-- Full voice-client call: endpoint validation (raising on a falsy
endpoint), then the loop over `payloads_to_try_voice` starting at
attempt number 1 with `last_error = None`
(main_voice_chat_console.py lines 158-277). -/
def call_with_search_voice (endpoint se sk si : Option String) (query : String)
    (oracle : Nat → HttpOutcome) : Except String String :=
  match validate_azure_endpoint_format endpoint with
  | none => Except.error "Invalid Azure OpenAI endpoint format"
  | some _ => run_payloads failMsg_voice oracle (payloads_to_try_voice se sk si query) 1 none

/-- Full add-client call: the loop over `payloads_to_try_add`
starting at attempt number 1 with `last_error = None`
(main_add_chatconsole.py lines 97-211). -/
def call_with_search_add (se sk si : Option String) (query : String)
    (oracle : Nat → HttpOutcome) : Except String String :=
  run_payloads failMsg_add oracle (payloads_to_try_add se sk si query) 1 none

/-- A non-200 response with the given status (JSON body parses,
no extractable content). -/
def respS (s : Nat) : HttpResponse :=
  { status := s, jsonOk := true, content := none, jsonStr := "e", text := "t", errText := "x" }

/-- A successful 200 response whose body yields the given content. -/
def respOk (c : String) : HttpResponse :=
  { status := 200, jsonOk := true, content := some c, jsonStr := "j", text := "t", errText := "x" }

/-- Network oracle: attempt 1 gets status 500, later attempts 404. -/
def oracleCE1 : Nat → HttpOutcome :=
  fun j => if j == 1 then HttpOutcome.response (respS 500) else HttpOutcome.response (respS 404)

/-- Network oracle: attempt 1 gets status 418, later attempts 404. -/
def oracleCE2 : Nat → HttpOutcome :=
  fun j => if j == 1 then HttpOutcome.response (respS 418) else HttpOutcome.response (respS 404)

/-- Network oracle on which every attempt fails with status 404. -/
def oracleAllFail : Nat → HttpOutcome := fun _ => HttpOutcome.response (respS 404)

/-- Network oracle: attempt 1 fails with status 500, attempt 2 (and
later) succeeds with content "hello". -/
def oracleW : Nat → HttpOutcome :=
  fun j => if j == 1 then HttpOutcome.response (respS 500) else HttpOutcome.response (respOk "hello")

/-- Outcome of the speech-recognition part of `transcribe_audio`:
recognized text, `sr.UnknownValueError`, `sr.RequestError`, or any
other exception (including audio-file errors). -/
inductive RecogOutcome where
  | success (text : String)
  | unknownValue
  | requestError (e : String)
  | otherError (e : String)
  deriving DecidableEq

/-- The voice file's placeholder for unintelligible speech
(main_voice_chat_console.py line 353). -/
def unrecognizedMsg_voice : String := "ไม่สามารถเข้าใจเสียงพูดได้"

/-- The voice file's recognition-service error message lead
(main_voice_chat_console.py line 356). -/
def recogErrorLead_voice : String := "เกิดข้อผิดพลาดในการรู้จำเสียง: "

/-- The voice file's generic audio error message lead
(main_voice_chat_console.py line 359). -/
def audioErrorLead_voice : String := "เกิดข้อผิดพลาดในการแปลงเสียง: "

/-- The add file's placeholder for unintelligible speech
(main_add_chatconsole.py line 287; the literal in that file is the
voice file's Thai text corrupted by an encoding round-trip, copied
here byte for byte). -/
def unrecognizedMsg_add : String := "‡πÑ‡∏°‡πà‡∏™‡∏≤‡∏°‡∏≤‡∏£‡∏ñ‡πÄ‡∏Ç‡πâ‡∏≤‡πÉ‡∏à‡πÄ‡∏™‡∏µ‡∏¢‡∏á‡∏û‡∏π‡∏î‡πÑ‡∏î‡πâ"

/-- The add file's recognition-service error message lead
(main_add_chatconsole.py line 290). -/
def recogErrorLead_add : String := "‡πÄ‡∏Å‡∏¥‡∏î‡∏Ç‡πâ‡∏≠‡∏ú‡∏¥‡∏î‡∏û‡∏•‡∏≤‡∏î‡πÉ‡∏ô‡∏Å‡∏≤‡∏£‡∏£‡∏π‡πâ‡∏à‡∏≥‡πÄ‡∏™‡∏µ‡∏¢‡∏á: "

/-- The add file's generic audio error message lead
(main_add_chatconsole.py line 293). -/
def audioErrorLead_add : String := "‡πÄ‡∏Å‡∏¥‡∏î‡∏Ç‡πâ‡∏≠‡∏ú‡∏¥‡∏î‡∏û‡∏•‡∏≤‡∏î‡πÉ‡∏ô‡∏Å‡∏≤‡∏£‡πÅ‡∏õ‡∏•‡∏á‡πÄ‡∏™‡∏µ‡∏¢‡∏á: "

/-- The `transcribe_audio` control flow shared by the two files
(main_voice_chat_console.py lines 334-359, main_add_chatconsole.py
lines 268-293), parameterized by the three placeholder strings:
recognized text is returned as is; each classified exception is
converted into its placeholder string and returned, never re-raised. -/
def transcribe_core (unrec recogLead audioLead : String) : RecogOutcome → String
  | RecogOutcome.success t => t
  | RecogOutcome.unknownValue => unrec
  | RecogOutcome.requestError e => recogLead ++ e
  | RecogOutcome.otherError e => audioLead ++ e

/-- The voice file's `transcribe_audio`. -/
def transcribe_audio_voice : RecogOutcome → String :=
  transcribe_core unrecognizedMsg_voice recogErrorLead_voice audioErrorLead_voice

/-- The add file's `transcribe_audio`. -/
def transcribe_audio_add : RecogOutcome → String :=
  transcribe_core unrecognizedMsg_add recogErrorLead_add audioErrorLead_add

/-- Where, if anywhere, the first exception occurs inside
`record_audio`'s try block (identical in both files:
main_voice_chat_console.py lines 279-332, main_add_chatconsole.py
lines 213-266): `initFail` is `pyaudio.PyAudio()` raising, `openFail`
is `p.open(...)` raising, `readFail` is some `stream.read(CHUNK)`
raising during the loop, `fileFail` is the temporary-file or wave
writing raising (after the device was already released), and `ok`
is the straight-line success returning the temporary file's name. -/
inductive RecordOutcome where
  | ok (tempName : String)
  | initFail (msg : String)
  | openFail (msg : String)
  | readFail (msg : String)
  | fileFail (msg : String)
  deriving DecidableEq

/-- What `record_audio` has done by the time it returns: its return
value (`None` on any exception, via the `except` branch) and which
acquire/release actions on the audio resource had executed. -/
structure RecordState where
  result : Option String
  deviceInitialized : Bool
  streamOpened : Bool
  streamClosed : Bool
  deviceTerminated : Bool
  deriving DecidableEq

/-- The loop iteration count `int(RATE / CHUNK * duration)` with
RATE 44100 and CHUNK 1024. -/
def chunkCount (duration : Nat) : Nat := 44100 * duration / 1024

/-- Embedding of `record_audio`: the try block runs straight-line
(init, open, read loop, stop/close/terminate, temp file, wave write,
return) and any exception jumps to the single `except` branch, which
returns `None` without performing any cleanup.  The resulting
`RecordState` records exactly the acquire/release calls executed
before the exception (if any) occurred. -/
def record_audio (_duration : Nat) (o : RecordOutcome) : RecordState :=
  match o with
  | RecordOutcome.initFail _ =>
    { result := none, deviceInitialized := false, streamOpened := false
      streamClosed := false, deviceTerminated := false }
  | RecordOutcome.openFail _ =>
    { result := none, deviceInitialized := true, streamOpened := false
      streamClosed := false, deviceTerminated := false }
  | RecordOutcome.readFail _ =>
    { result := none, deviceInitialized := true, streamOpened := true
      streamClosed := false, deviceTerminated := false }
  | RecordOutcome.fileFail _ =>
    { result := none, deviceInitialized := true, streamOpened := true
      streamClosed := true, deviceTerminated := true }
  | RecordOutcome.ok name =>
    { result := some name, deviceInitialized := true, streamOpened := true
      streamClosed := true, deviceTerminated := true }

/-- Outcome of the speech-synthesis part of `text_to_speech`:
completed, canceled with or without an error reason, some other
result reason, or an exception raised inside the try block (whose
`attempted` flag records whether `speak_text_async` had been
reached). -/
inductive SynthOutcome where
  | completed
  | canceledError (details : String)
  | canceledOther (reason : String)
  | otherReason (reason : String)
  | raised (attempted : Bool) (msg : String)
  deriving DecidableEq

/-- What `text_to_speech` returns and whether it reached the
synthesis (network) call. -/
structure SynthResult where
  success : Bool
  networkAttempted : Bool
  deriving DecidableEq

/-- Embedding of the voice file's `text_to_speech`
(main_voice_chat_console.py lines 118-156): a falsy speech key or
region returns `False` before any synthesizer is created; otherwise
the result reason decides the boolean, and any exception is caught
and yields `False`. -/
def text_to_speech_voice (speechKey speechRegion : Option String) (o : SynthOutcome) : SynthResult :=
  if !truthy speechKey || !truthy speechRegion then
    { success := false, networkAttempted := false }
  else
    match o with
    | SynthOutcome.completed => { success := true, networkAttempted := true }
    | SynthOutcome.canceledError _ => { success := false, networkAttempted := true }
    | SynthOutcome.canceledOther _ => { success := false, networkAttempted := true }
    | SynthOutcome.otherReason _ => { success := false, networkAttempted := true }
    | SynthOutcome.raised a _ => { success := false, networkAttempted := a }

/-- One chat-history entry, as both files append them to
`st.session_state.messages`. -/
structure HistMessage where
  role : String
  content : String
  timestamp : String
  deriving DecidableEq

/-- Outcome of the completion call made inside `process_query`:
the returned response text, or the message of the exception it
raised. -/
inductive CallResult where
  | success (response : String)
  | failure (errMsg : String)
  deriving DecidableEq

/-- The voice file's error message lead in `process_query`
(main_voice_chat_console.py line 598). -/
def errorLead_voice : String := "เกิดข้อผิดพลาด: "

/-- The add file's error message lead in `process_query`
(main_add_chatconsole.py line 509; encoding-corrupted literal copied
byte for byte). -/
def errorLead_add : String := "‡πÄ‡∏Å‡∏¥‡∏î‡∏Ç‡πâ‡∏≠‡∏ú‡∏¥‡∏î‡∏û‡∏•‡∏≤‡∏î: "

/-- The add file's canned response when search parameters are missing
(main_add_chatconsole.py line 483; encoding-corrupted literal copied
byte for byte). -/
def searchNotReadyMsg_add : String := "‡∏£‡∏∞‡∏ö‡∏ö‡∏Ñ‡πâ‡∏ô‡∏´‡∏≤‡πÑ‡∏°‡πà‡∏û‡∏£‡πâ‡∏≠‡∏°‡πÉ‡∏ä‡πâ‡∏á‡∏≤‡∏ô ‡∏Å‡∏£‡∏∏‡∏ì‡∏≤‡∏ï‡∏£‡∏ß‡∏à‡∏™‡∏≠‡∏ö‡∏Å‡∏≤‡∏£‡∏ï‡∏±‡πâ‡∏á‡∏Ñ‡πà‡∏≤"

/-- Embedding of the voice file's `process_query`
(main_voice_chat_console.py lines 552-612): append the user message,
then on a successful call append the response as an assistant
message, and on an exception append the error message as an
assistant message.  `ts` and `ts2` are the two timestamps taken;
logging, text-to-speech and `st.rerun` do not touch the history. -/
def process_query_voice (msgs : List HistMessage) (query ts ts2 : String)
    (cr : CallResult) : List HistMessage :=
  let withUser := msgs ++ [{ role := "user", content := query, timestamp := ts }]
  match cr with
  | CallResult.success r =>
    withUser ++ [{ role := "assistant", content := r, timestamp := ts2 }]
  | CallResult.failure e =>
    withUser ++ [{ role := "assistant", content := errorLead_voice ++ e, timestamp := ts2 }]

/-- Embedding of the add file's `process_query`
(main_add_chatconsole.py lines 463-523): append the user message;
when not all three search parameters are truthy the canned
not-ready text becomes the assistant message (no call is made);
otherwise the call's response or its error message becomes the
assistant message. -/
def process_query_add (msgs : List HistMessage) (query ts ts2 : String)
    (se sk si : Option String) (cr : CallResult) : List HistMessage :=
  let withUser := msgs ++ [{ role := "user", content := query, timestamp := ts }]
  if !(truthy se && truthy sk && truthy si) then
    withUser ++ [{ role := "assistant", content := searchNotReadyMsg_add, timestamp := ts2 }]
  else
    match cr with
    | CallResult.success r =>
      withUser ++ [{ role := "assistant", content := r, timestamp := ts2 }]
    | CallResult.failure e =>
      withUser ++ [{ role := "assistant", content := errorLead_add ++ e, timestamp := ts2 }]

/-- A failing attempt (no 200 with extractable content) overwrites
`last_error` with the attempt's message and moves on to the next
payload. -/
theorem run_step_fail (fm : Nat → HttpOutcome → String) (oracle : Nat → HttpOutcome)
    (p : Payload) (rest : List Payload) (i : Nat) (le : Option String)
    (h : (succContent (oracle i)).isNone = true) :
    run_payloads fm oracle (p :: rest) i le
      = run_payloads fm oracle rest (i + 1) (some (fm i (oracle i))) := by
  cases ho : oracle i with
  | response r =>
    by_cases hs : (r.status == 200) = true
    · have hx : extractContent r = none := by
        have h2 := h
        simp [succContent, ho, hs] at h2
        exact h2
      simp [run_payloads, ho, hs, hx]
    · simp only [Bool.not_eq_true] at hs
      simp [run_payloads, ho, hs]
  | timeout => simp [run_payloads, ho]
  | connectionError => simp [run_payloads, ho]
  | otherError m => simp [run_payloads, ho]

/-- A successful attempt (status 200, content extractable) returns the
content immediately. -/
theorem run_step_succ (fm : Nat → HttpOutcome → String) (oracle : Nat → HttpOutcome)
    (p : Payload) (rest : List Payload) (i : Nat) (le : Option String) (c : String)
    (h : succContent (oracle i) = some c) :
    run_payloads fm oracle (p :: rest) i le = Except.ok c := by
  cases ho : oracle i with
  | response r =>
    by_cases hs : (r.status == 200) = true
    · have hx : extractContent r = some c := by
        have h2 := h
        simp [succContent, ho, hs] at h2
        exact h2

      simp [run_payloads, ho, hs, hx]
    · exfalso
      simp only [Bool.not_eq_true] at hs
      simp [succContent, ho, hs] at h
  | timeout => exfalso; simp [succContent, ho] at h
  | connectionError => exfalso; simp [succContent, ho] at h
  | otherError m => exfalso; simp [succContent, ho] at h

/-- When every attempt before some position fails and that position's
attempt succeeds with content `c`, the loop returns `c`, regardless of
the payloads after that position. -/
theorem run_first_success (fm : Nat → HttpOutcome → String) (oracle : Nat → HttpOutcome) :
    ∀ (pre : List Payload) (p : Payload) (post : List Payload) (i : Nat) (le : Option String)
      (c : String),
      (∀ j, i ≤ j → j < i + pre.length → (succContent (oracle j)).isNone = true) →
      succContent (oracle (i + pre.length)) = some c →
      run_payloads fm oracle (pre ++ p :: post) i le = Except.ok c := by
  intro pre
  induction pre with
  | nil =>
    intro p post i le c _ hsucc
    simp only [List.nil_append]
    exact run_step_succ fm oracle p post i le c (by simpa using hsucc)
  | cons q pre ih =>
    intro p post i le c hfail hsucc
    rw [List.cons_append]
    rw [run_step_fail fm oracle q (pre ++ p :: post) i le
        (hfail i (Nat.le_refl i) (by simp [List.length_cons]))]
    apply ih p post (i + 1) (some (fm i (oracle i))) c
    · intro j hj1 hj2
      refine hfail j (by omega) ?_
      simp only [List.length_cons]
      omega
    · have harith : i + (q :: pre).length = (i + 1) + pre.length := by
        simp only [List.length_cons]
        omega
      rw [harith] at hsucc
      exact hsucc

/-- When every attempt fails, the loop raises with a message built
from `last_error`, which holds only the final attempt's message. -/
theorem run_exhaust (fm : Nat → HttpOutcome → String) (oracle : Nat → HttpOutcome) :
    ∀ (ps : List Payload) (i : Nat) (le : Option String),
      ps ≠ [] →
      (∀ j, i ≤ j → j < i + ps.length → (succContent (oracle j)).isNone = true) →
      run_payloads fm oracle ps i le
        = Except.error (allFailedMsg (some (fm (i + ps.length - 1) (oracle (i + ps.length - 1))))) := by
  intro ps
  induction ps with
  | nil => intro i le h _; exact absurd rfl h
  | cons p rest ih =>
    intro i le _ hfail
    have h0 : (succContent (oracle i)).isNone = true :=
      hfail i (Nat.le_refl i) (by simp [List.length_cons])
    rw [run_step_fail fm oracle p rest i le h0]
    cases rest with
    | nil => simp [run_payloads]
    | cons q rest2 =>
      have hrec := ih (i + 1) (some (fm i (oracle i))) (by simp)
        (fun j hj1 hj2 => hfail j (by omega) (by
          simp only [List.length_cons] at hj2 ⊢
          omega))
      rw [hrec]
      have hlen : (i + 1) + (q :: rest2).length - 1 = i + (p :: q :: rest2).length - 1 := by
        simp only [List.length_cons]
        omega
      rw [hlen]

/-- C4 counterexample: two runs whose first attempts fail with
different statuses (500 versus 418) produce the very same exhaustion
error, so the error cannot carry one attempt record per attempted
variant — it embeds only the last attempt's message. -/
theorem C4_counterexample :
    oracleCE1 1 ≠ oracleCE2 1
    ∧ run_payloads failMsg_voice oracleCE1 (payloads_to_try_add none none none "q") 1 none
        = run_payloads failMsg_voice oracleCE2 (payloads_to_try_add none none none "q") 1 none
    ∧ run_payloads failMsg_voice oracleCE1 (payloads_to_try_add none none none "q") 1 none
        = Except.error
            "All API payload structures failed. Last error: Payload 4 failed - Status: 404, Error: e" := by
  refine ⟨by decide, rfl, rfl⟩

/-- C4 (amended): if every variant's submission fails to return a 200
response with extractable content, both clients' loops fail with the
aggregated exception whose message carries only the LAST attempt's
record (its `last_error`), not one record per attempted variant. -/
theorem C4_amended : ∀ (ps : List Payload) (oracle : Nat → HttpOutcome) (le : Option String),
    ps ≠ [] →
    (∀ j, 1 ≤ j → j < 1 + ps.length → (succContent (oracle j)).isNone = true) →
    run_payloads failMsg_voice oracle ps 1 le
      = Except.error (allFailedMsg (some (failMsg_voice ps.length (oracle ps.length))))
    ∧ run_payloads failMsg_add oracle ps 1 le
      = Except.error (allFailedMsg (some (failMsg_add ps.length (oracle ps.length)))) := by
  intro ps oracle le hne hfail
  have h1 := run_exhaust failMsg_voice oracle ps 1 le hne hfail
  have h2 := run_exhaust failMsg_add oracle ps 1 le hne hfail
  have hl : 1 + ps.length - 1 = ps.length := by omega
  rw [hl] at h1 h2
  exact ⟨h1, h2⟩

/-- Witness for C4 (amended) at a one-payload list on which every
attempt returns status 404. -/
theorem C4_witness :
    run_payloads failMsg_voice oracleAllFail [payloadD "q"] 1 none
      = Except.error (allFailedMsg (some (failMsg_voice 1 (oracleAllFail 1))))
    ∧ run_payloads failMsg_add oracleAllFail [payloadD "q"] 1 none
      = Except.error (allFailedMsg (some (failMsg_add 1 (oracleAllFail 1)))) :=
  C4_amended [payloadD "q"] oracleAllFail none (by simp) (fun _ _ _ => rfl)

/-- C5: both clients submit the candidate bodies in list order: a
failing attempt (any non-200 status, transport failure, or a 200 whose
body does not decode to the expected shape) records its message in
`last_error` and moves to the next variant without retrying, and the
loop stops at the first attempt that returns status 200 with
extractable content, returning exactly that content (independently of
any later variants). -/
theorem C5_first_success_in_order : ∀ (oracle : Nat → HttpOutcome) (pre : List Payload)
    (p : Payload) (post : List Payload) (i : Nat) (le : Option String) (c : String),
    ((∀ j, i ≤ j → j < i + pre.length → (succContent (oracle j)).isNone = true) →
      succContent (oracle (i + pre.length)) = some c →
        run_payloads failMsg_voice oracle (pre ++ p :: post) i le = Except.ok c
        ∧ run_payloads failMsg_add oracle (pre ++ p :: post) i le = Except.ok c)
    ∧ ((succContent (oracle i)).isNone = true →
        run_payloads failMsg_voice oracle (p :: post) i le
          = run_payloads failMsg_voice oracle post (i + 1) (some (failMsg_voice i (oracle i)))
        ∧ run_payloads failMsg_add oracle (p :: post) i le
          = run_payloads failMsg_add oracle post (i + 1) (some (failMsg_add i (oracle i)))) := by
  intro oracle pre p post i le c
  constructor
  · intro hfail hsucc
    exact ⟨run_first_success failMsg_voice oracle pre p post i le c hfail hsucc,
           run_first_success failMsg_add oracle pre p post i le c hfail hsucc⟩
  · intro h
    exact ⟨run_step_fail failMsg_voice oracle p post i le h,
           run_step_fail failMsg_add oracle p post i le h⟩

/-- Witness for C5 at a two-payload list whose first attempt fails
with status 500 and whose second succeeds with content "hello". -/
theorem C5_witness :
    run_payloads failMsg_voice oracleW [payloadD "q", payloadD "q"] 1 none = Except.ok "hello"
    ∧ run_payloads failMsg_add oracleW [payloadD "q", payloadD "q"] 1 none = Except.ok "hello" :=
  (C5_first_success_in_order oracleW [payloadD "q"] (payloadD "q") [] 1 none "hello").1
    (fun j hj1 hj2 => by
      have h2 : j < 2 := by simpa using hj2
      have hj : j = 1 := by omega
      subst hj
      rfl)
    rfl

/-- C1 counterexample: with all three search fields present, the
voice client's variant list does not contain the minimal-schema
variant C at all, so the list cannot be A, B, C followed by D. -/
theorem C1_counterexample :
    presentCount (some "e") (some "k") (some "i") = 3
    ∧ payloadC (some "e") (some "k") (some "i") "q"
        ∉ payloads_to_try_voice (some "e") (some "k") (some "i") "q" := by
  decide

/-- C1 (amended): with all three search fields present, the add
client's variant list is exactly A, B, C, D in that order, while the
voice client's variant list is exactly A, B, D in that order (it has
no minimal-schema variant C). -/
theorem C1_amended : ∀ (se sk si : Option String) (q : String),
    (truthy se && truthy sk && truthy si) = true →
    payloads_to_try_add se sk si q
      = [payloadA se sk si q, payloadB se sk si q, payloadC se sk si q, payloadD q]
    ∧ payloads_to_try_voice se sk si q
      = [payloadA se sk si q, payloadB se sk si q, payloadD q] := by
  intro se sk si q h
  exact ⟨rfl, by simp [payloads_to_try_voice, h]⟩

/-- Witness for C1 (amended) at a fully configured search setup. -/
theorem C1_witness :
    (truthy (some "e") && truthy (some "k") && truthy (some "i")) = true
    ∧ (payloads_to_try_add (some "e") (some "k") (some "i") "q"
         = [payloadA (some "e") (some "k") (some "i") "q",
            payloadB (some "e") (some "k") (some "i") "q",
            payloadC (some "e") (some "k") (some "i") "q", payloadD "q"]
       ∧ payloads_to_try_voice (some "e") (some "k") (some "i") "q"
         = [payloadA (some "e") (some "k") (some "i") "q",
            payloadB (some "e") (some "k") (some "i") "q", payloadD "q"]) :=
  ⟨by decide, C1_amended (some "e") (some "k") (some "i") "q" (by decide)⟩

/-- C2 counterexample: with exactly one search field present, the add
client's variant list still contains search-enabled variants. -/
theorem C2_counterexample :
    presentCount (some "e") none none = 1
    ∧ (payloads_to_try_add (some "e") none none "q").any (fun p => isSearchVariant p) = true := by
  decide

/-- C2 (amended): with exactly one or two of the three search fields
present, the voice client's variant list contains no search-enabled
variant (it is exactly the fallback D); the add client's variant list
however always contains search variants A, B, C regardless of field
presence (its caller guards against partial configuration instead). -/
theorem C2_amended : ∀ (se sk si : Option String) (q : String),
    1 ≤ presentCount se sk si → presentCount se sk si ≤ 2 →
    payloads_to_try_voice se sk si q = [payloadD q]
    ∧ (payloads_to_try_voice se sk si q).all (fun p => !(isSearchVariant p)) = true
    ∧ payloads_to_try_add se sk si q
        = [payloadA se sk si q, payloadB se sk si q, payloadC se sk si q, payloadD q] := by
  intro se sk si q hlo hhi
  have hal : (truthy se && truthy sk && truthy si) = false := by
    cases h1 : truthy se <;> cases h2 : truthy sk <;> cases h3 : truthy si <;>
      simp_all [presentCount]
  refine ⟨by simp [payloads_to_try_voice, hal], ?_, rfl⟩
  simp [payloads_to_try_voice, hal, isSearchVariant, payloadD]

/-- Witness for C2 (amended) at a configuration with exactly one
search field present. -/
theorem C2_witness :
    (1 ≤ presentCount (some "e") none none ∧ presentCount (some "e") none none ≤ 2)
    ∧ (payloads_to_try_voice (some "e") none none "q" = [payloadD "q"]
       ∧ (payloads_to_try_voice (some "e") none none "q").all (fun p => !(isSearchVariant p)) = true
       ∧ payloads_to_try_add (some "e") none none "q"
           = [payloadA (some "e") none none "q", payloadB (some "e") none none "q",
              payloadC (some "e") none none "q", payloadD "q"]) :=
  ⟨⟨by decide, by decide⟩, C2_amended (some "e") none none "q" (by decide) (by decide)⟩

/-- C3 counterexample: with no search field present, the add client's
variant list has four elements, not just the fallback D. -/
theorem C3_counterexample :
    presentCount none none none = 0
    ∧ (payloads_to_try_add none none none "q").length = 4
    ∧ payloads_to_try_add none none none "q" ≠ [payloadD "q"] := by
  decide

/-- C3 (amended): with none of the three search fields present, the
voice client's variant list is exactly the single fallback variant D;
the add client's variant list still has all four structures. -/
theorem C3_amended : ∀ (se sk si : Option String) (q : String),
    presentCount se sk si = 0 →
    payloads_to_try_voice se sk si q = [payloadD q]
    ∧ (payloads_to_try_add se sk si q).length = 4 := by
  intro se sk si q h0
  have hal : (truthy se && truthy sk && truthy si) = false := by
    cases h1 : truthy se <;> cases h2 : truthy sk <;> cases h3 : truthy si <;>
      simp_all [presentCount]
  exact ⟨by simp [payloads_to_try_voice, hal], rfl⟩

/-- Witness for C3 (amended) at the fully absent search configuration. -/
theorem C3_witness :
    presentCount none none none = 0
    ∧ (payloads_to_try_voice none none none "q" = [payloadD "q"]
       ∧ (payloads_to_try_add none none none "q").length = 4) :=
  ⟨by decide, C3_amended none none none "q" (by decide)⟩

/-- C6 counterexample: the add client builds its request URL from the
endpoint with only the trailing slash stripped; no `https://` scheme
is prepended before the URL is built. -/
theorem C6_counterexample :
    request_url_add "myresource.openai.azure.com/" "dep" "v1"
      = "myresource.openai.azure.com/openai/deployments/dep/chat/completions?api-version=v1"
    ∧ strStarts (request_url_add "myresource.openai.azure.com/" "dep" "v1") "https://" = false := by
  decide

/-- C6 (amended): the voice client's `validate_azure_endpoint_format`
strips trailing slashes and prepends `https://` whenever the value
does not already start with `https://`; in particular
"myresource.openai.azure.com/" normalizes to
"https://myresource.openai.azure.com", and every nonempty input
normalizes to a value starting with `https://`.  The add client only
strips the trailing slash before building its request URL. -/
theorem C6_amended :
    validate_azure_endpoint_format (some "myresource.openai.azure.com/")
      = some "https://myresource.openai.azure.com"
    ∧ (∀ s : String, s ≠ "" → ∃ e, validate_azure_endpoint_format (some s) = some e
         ∧ strStarts e "https://" = true)
    ∧ rstripSlashes "myresource.openai.azure.com/" = "myresource.openai.azure.com" := by
  refine ⟨by decide, ?_, by decide⟩
  intro s hs
  have hne : (s == "") = false := by
    cases h : (s == "") with
    | true => exact absurd (by simpa using h) hs
    | false => rfl
  cases hp : strStarts (rstripSlashes s) "https://" with
  | true => exact ⟨rstripSlashes s, by simp [validate_azure_endpoint_format, hne, hp], hp⟩
  | false =>
    refine ⟨"https://" ++ rstripSlashes s,
      by simp [validate_azure_endpoint_format, hne, hp], ?_⟩
    simp [strStarts, String.data_append]

/-- Witness for C6 (amended): the universally quantified part applied
at the concrete nonempty input "abc". -/
theorem C6_witness :
    ∃ e, validate_azure_endpoint_format (some "abc") = some e
      ∧ strStarts e "https://" = true :=
  C6_amended.2.1 "abc" (by decide)

/-- C7: `transcribe_audio` (in both files) is a total function of the
recognition outcome: it returns the recognized text on success, the
"unrecognized speech" placeholder on `sr.UnknownValueError`, and one
of the two error placeholders (service error / other audio error) on
any other exception — it never propagates an exception. -/
theorem C7_transcribe_total_classified :
    (∀ o : RecogOutcome,
       (∃ t, o = RecogOutcome.success t ∧ transcribe_audio_voice o = t)
       ∨ transcribe_audio_voice o = unrecognizedMsg_voice
       ∨ (∃ e, transcribe_audio_voice o = recogErrorLead_voice ++ e)
       ∨ (∃ e, transcribe_audio_voice o = audioErrorLead_voice ++ e))
    ∧ transcribe_audio_voice RecogOutcome.unknownValue = unrecognizedMsg_voice
    ∧ (∀ o : RecogOutcome,
       (∃ t, o = RecogOutcome.success t ∧ transcribe_audio_add o = t)
       ∨ transcribe_audio_add o = unrecognizedMsg_add
       ∨ (∃ e, transcribe_audio_add o = recogErrorLead_add ++ e)
       ∨ (∃ e, transcribe_audio_add o = audioErrorLead_add ++ e))
    ∧ transcribe_audio_add RecogOutcome.unknownValue = unrecognizedMsg_add := by
  refine ⟨?_, rfl, ?_, rfl⟩ <;>
    intro o <;> cases o <;>
      simp [transcribe_audio_voice, transcribe_audio_add, transcribe_core]

/-- C8: evaluation of `record_audio` at the failing input.  When
`stream.read` raises (a device error during capture), the `except`
branch returns `None` while the stream is still open and the PyAudio
handle is not terminated — the exclusive audio device IS leaked,
contradicting the claim; on the success path everything is released. -/
theorem C8_code_bug_eval :
    record_audio 5 (RecordOutcome.readFail "device read error")
      = { result := none, deviceInitialized := true, streamOpened := true
          streamClosed := false, deviceTerminated := false }
    ∧ record_audio 5 (RecordOutcome.ok "out.wav")
      = { result := some "out.wav", deviceInitialized := true, streamOpened := true
          streamClosed := true, deviceTerminated := true } :=
  ⟨rfl, rfl⟩

/-- C9: the voice client's `text_to_speech` never raises: with a
missing (falsy) speech key or region it returns `False` without
reaching the synthesis call, and on any outcome other than completed
synthesis it returns `False`. -/
theorem C9_synthesize_never_raises : ∀ (key region : Option String) (o : SynthOutcome),
    ((truthy key = false ∨ truthy region = false) →
       text_to_speech_voice key region o = { success := false, networkAttempted := false })
    ∧ (o ≠ SynthOutcome.completed → (text_to_speech_voice key region o).success = false) := by
  intro key region o
  constructor
  · intro h
    rcases h with h | h <;> simp [text_to_speech_voice, h]
  · intro h
    cases hk : truthy key <;> cases hr : truthy region <;> cases o <;>
      simp_all [text_to_speech_voice]

/-- Witness for C9: missing key with completed outcome still yields
`False` with no network attempt; a cancellation yields `False`. -/
theorem C9_witness :
    text_to_speech_voice none (some "r") SynthOutcome.completed
      = { success := false, networkAttempted := false }
    ∧ (text_to_speech_voice (some "k") (some "r") (SynthOutcome.canceledError "e")).success
      = false :=
  ⟨(C9_synthesize_never_raises none (some "r") SynthOutcome.completed).1 (Or.inl rfl),
   (C9_synthesize_never_raises (some "k") (some "r") (SynthOutcome.canceledError "e")).2
     (by intro h; exact SynthOutcome.noConfusion h)⟩

/-- C10: every invocation of `process_query` (in both files) appends
exactly one user message carrying the query and then exactly one
assistant message (the response, the canned not-ready text, or the
error message) to the chat history, so the history grows by exactly
two messages on every path. -/
theorem C10_history_grows_by_two : ∀ (msgs : List HistMessage) (query ts ts2 : String)
    (cr : CallResult) (se sk si : Option String),
    (∃ a, process_query_voice msgs query ts ts2 cr
       = msgs ++ [{ role := "user", content := query, timestamp := ts },
                  { role := "assistant", content := a, timestamp := ts2 }])
    ∧ (∃ a, process_query_add msgs query ts ts2 se sk si cr
       = msgs ++ [{ role := "user", content := query, timestamp := ts },
                  { role := "assistant", content := a, timestamp := ts2 }])
    ∧ (process_query_voice msgs query ts ts2 cr).length = msgs.length + 2
    ∧ (process_query_add msgs query ts ts2 se sk si cr).length = msgs.length + 2 := by
  intro msgs query ts ts2 cr se sk si
  refine ⟨?_, ?_, ?_, ?_⟩
  · cases cr with
    | success r => exact ⟨r, by simp [process_query_voice]⟩
    | failure e => exact ⟨errorLead_voice ++ e, by simp [process_query_voice]⟩
  · cases hg : (truthy se && truthy sk && truthy si) with
    | true =>
      cases cr with
      | success r => exact ⟨r, by simp [process_query_add, hg]⟩
      | failure e => exact ⟨errorLead_add ++ e, by simp [process_query_add, hg]⟩
    | false => exact ⟨searchNotReadyMsg_add, by simp [process_query_add, hg]⟩
  · cases cr <;> simp [process_query_voice]
  · cases hg : (truthy se && truthy sk && truthy si) <;> cases cr <;>
      simp [process_query_add, hg]

end DigiChatbot
